import Mathlib

/- Shallow embedding of the sobj Wavefront OBJ/MTL loader (src/sobj.hpp).

   Modelling conventions, used consistently below:
   * C++ strings are modelled as lists of characters (`Str`).
   * `float` values are modelled as rationals; a numeric token is read by a
     sign/digits/point grammar, which covers the inputs exercised here.
   * stream extraction (`operator>>`) is modelled at whitespace-token
     granularity: an extraction reads a maximal numeric prefix of the current
     token, and a nonempty leftover makes the following extraction fail, as
     the unconsumed characters would in the character stream.
   * `assert` is a release-build no-op; `std::unordered_map::operator[]`
     default-inserts a missing key; maps are modelled as association lists in
     insertion order.
   * undefined behaviour (falling off the end of a value-returning function,
     dereferencing a null handle, an unchecked image decode) is modelled as
     `Option.none`; a thrown exception and a non-terminating loop are kept
     apart as distinct outcomes of a load.
   * file contents and image decoding are supplied by an explicit `Fs` record
     (filesystem and image-decoder collaborators). -/

abbrev Str := List Char

def str (s : String) : Str := s.data

/-- Characters accepted by std::isspace in the default locale. -/
def isSpaceC (c : Char) : Bool :=
  c == ' ' || c == '\t' || c == '\n' || c == '\x0b' || c == '\x0c' || c == '\r'

/-- detail::trimLeft: erase leading whitespace. -/
def trimLeftC (l : Str) : Str := l.dropWhile isSpaceC

/-- detail::trimRight: erase trailing whitespace. -/
def trimRightC (l : Str) : Str := (l.reverse.dropWhile isSpaceC).reverse

/-- detail::trim. -/
def trimC (l : Str) : Str := trimRightC (trimLeftC l)

/-- detail::fileNameFromPath: the substring after the last path separator. -/
def fileNameFromPath (p : Str) : Str :=
  (p.reverse.takeWhile (fun c => c != '/' && c != '\\')).reverse

/-- Whitespace tokenization; the accumulator holds the current token reversed. -/
def tokensGo : Str → Str → List Str
  | [], acc => if acc.isEmpty then [] else [acc.reverse]
  | c :: cs, acc =>
    if isSpaceC c then
      if acc.isEmpty then tokensGo cs [] else acc.reverse :: tokensGo cs []
    else tokensGo cs (c :: acc)

/-- The whitespace-separated tokens of a line, as read by repeated
`stream >> token`. -/
def tokensC (l : Str) : List Str := tokensGo l []

/-- The raw remainder of a line after `stream >> keyword`, as `std::getline`
then reads it from the same stream: the separating whitespace is kept. -/
def restOfLine (l : Str) : Str :=
  (l.dropWhile isSpaceC).dropWhile (fun c => !(isSpaceC c))

/-- std::string::find(sub) != npos. -/
def hasInfixC (sub : Str) : Str → Bool
  | [] => sub.isEmpty
  | c :: cs => sub.isPrefixOf (c :: cs) || hasInfixC sub cs

/-- Value of a list of decimal digit characters. -/
def digitsToNat (l : Str) : Nat := l.foldl (fun a c => a * 10 + (c.toNat - 48)) 0

/-- Maximal `[+-]?digits` prefix of a token, as `stream >> int` reads it;
the unconsumed remainder of the token is returned alongside. -/
def intPrefixC (t : Str) : Option (Int × Str) :=
  let p : Int × Str :=
    match t with
    | '-' :: r => (-1, r)
    | '+' :: r => (1, r)
    | r => (1, r)
  let ds := p.2.takeWhile Char.isDigit
  let r := p.2.dropWhile Char.isDigit
  if ds.isEmpty then none else some (p.1 * (digitsToNat ds : Int), r)

/-- Maximal `[+-]?digits[.digits]` prefix of a token, as `stream >> float`
reads it; the unconsumed remainder of the token is returned alongside. -/
def floatPrefixC (t : Str) : Option (ℚ × Str) :=
  let p : ℚ × Str :=
    match t with
    | '-' :: r => (-1, r)
    | '+' :: r => (1, r)
    | r => (1, r)
  let ip := p.2.takeWhile Char.isDigit
  let r1 := p.2.dropWhile Char.isDigit
  match r1 with
  | '.' :: r2 =>
    let fp := r2.takeWhile Char.isDigit
    let r3 := r2.dropWhile Char.isDigit
    if ip.isEmpty && fp.isEmpty then none
    else some (p.1 * ((digitsToNat ip : ℚ) + (digitsToNat fp : ℚ) / ((10 : ℚ) ^ fp.length)), r3)
  | _ => if ip.isEmpty then none else some (p.1 * (digitsToNat ip : ℚ), r1)

structure Vec3 where
  x : ℚ
  y : ℚ
  z : ℚ
deriving DecidableEq

structure Vec2 where
  x : ℚ
  y : ℚ
deriving DecidableEq

structure ImageData where
  name : Str
  bytes : List Nat
  width : Int
  height : Int
  channels : Int
deriving DecidableEq

structure Material where
  name : Str
  ambientMap : Option ImageData
  diffuseMap : Option ImageData
  specularMap : Option ImageData
  roughnessMap : Option ImageData
  alphaMap : Option ImageData
  ambient : Vec3
  diffuse : Vec3
  specular : Vec3
  roughness : ℚ
  alpha : ℚ
deriving DecidableEq

/-- std::make_shared<Material>(name): the name member is initialized, the rest
take their default member initializers (Vec3{-1} value-initializes y, z to 0). -/
def mkMaterial (n : Str) : Material :=
  { name := n, ambientMap := none, diffuseMap := none, specularMap := none,
    roughnessMap := none, alphaMap := none,
    ambient := ⟨-1, 0, 0⟩, diffuse := ⟨-1, 0, 0⟩, specular := ⟨-1, 0, 0⟩,
    roughness := -1, alpha := -1 }

structure Face where
  positionIndices : List Nat
  normalIndices : List Nat
  uvIndices : List Nat
  colorIndices : List Nat
deriving DecidableEq

/-- Face::numVertices. -/
def Face.numVertices (f : Face) : Nat := f.positionIndices.length

def emptyFace : Face := ⟨[], [], [], []⟩

structure Mesh where
  name : Str
  faces : List Face
  material : Option Material
deriving DecidableEq

/-- A default-constructed Mesh, as unordered_map::operator[] inserts it. -/
def emptyMesh : Mesh := ⟨[], [], none⟩

structure OBJData where
  positions : List Vec3
  normals : List Vec3
  textureUVs : List Vec2
  colors : List Vec3
  meshes : List Mesh
  name : Str
deriving DecidableEq

/-- Diagnostics recorded through sobjLogger; each constructor stands for one
format string of the source, carrying the data interpolated into it. -/
inductive Msg
  | parseError (file : Str) (line : Nat)
  | wrongExtension (file : Str)
  | noPositions (file : Str)
  | unknownIdent (file : Str) (line : Nat)
  | loadSuccess (file : Str)
  | faceSyntax (file : Str) (line : Nat)
  | dupImageMap (file : Str) (line : Nat)
  | mtlParseError (file : Str) (line : Nat)
  | mtlUnknownIdent (file : Str) (line : Nat)
deriving DecidableEq

structure Log where
  errors : List Msg
  warnings : List Msg
  infos : List Msg
deriving DecidableEq

def emptyLog : Log := ⟨[], [], []⟩

def Log.error (lg : Log) (m : Msg) : Log := { lg with errors := lg.errors ++ [m] }

def Log.warn (lg : Log) (m : Msg) : Log := { lg with warnings := lg.warnings ++ [m] }

def Log.info (lg : Log) (m : Msg) : Log := { lg with infos := lg.infos ++ [m] }

def containsKey {α : Type} (m : List (Str × α)) (k : Str) : Bool :=
  m.any (fun p => p.1 == k)

def lookupVal {α : Type} (m : List (Str × α)) (k : Str) : Option α :=
  (m.find? (fun p => p.1 == k)).map (·.2)

/-- unordered_map::operator[] followed by assignment: overwrite a present key,
otherwise insert. -/
def mapSet {α : Type} (m : List (Str × α)) (k : Str) (v : α) : List (Str × α) :=
  if m.any (fun p => p.1 == k) then m.map (fun p => if p.1 == k then (k, v) else p)
  else m ++ [(k, v)]

/-- unordered_map::operator[] read access: the mapped value, default if absent
(the insertion a C++ operator[] read performs is applied by the call sites
through mapSet where it is observable). -/
def mapGetD {α : Type} (m : List (Str × α)) (k : Str) (d : α) : α :=
  (lookupVal m k).getD d

/-- std::filesystem::path::parent_path, for the forward-slash paths used here:
everything before the last slash, empty when there is none. -/
def dirOf (p : Str) : Str :=
  match p.reverse.dropWhile (fun c => c != '/') with
  | [] => []
  | _ :: t => t.reverse

structure MTLState where
  materials : List (Str × Material)
  currentMaterial : Str
  filePath : Str
  workingDirectory : Str
  line : Nat
deriving DecidableEq

def initMTL : MTLState := ⟨[], [], [], [], 0⟩

/-- The external collaborators: file contents per path, and the stb image
decoder per path. -/
structure Fs where
  files : List (Str × List Str)
  decodeImage : Str → Option ImageData

def fsLookup (fs : Fs) (p : Str) : Option (List Str) := lookupVal fs.files p

/-- MTLLoader::Identifier. -/
inductive MTLId
  | NEW_MATERIAL
  | AMBIENT_MAP
  | DIFFUSE_MAP
  | SPECULAR_MAP
  | ROUGHNESS_MAP
  | ALPHA_MAP
  | AMBIENT
  | DIFFUSE
  | SPECULAR
  | ROUGHNESS
  | ALPHA
  | COMMENT
  | BLANK
  | UNKNOWN
deriving DecidableEq

/-- MTLLoader::identifier: ordered keyword-with-separator matching. -/
def mtlIdentifier (l : Str) : MTLId :=
  if (str "newmtl ").isPrefixOf l then .NEW_MATERIAL
  else if (str "map_Ka ").isPrefixOf l then .AMBIENT_MAP
  else if (str "map_Kd ").isPrefixOf l then .DIFFUSE_MAP
  else if (str "map_Ks ").isPrefixOf l then .SPECULAR_MAP
  else if (str "map_Ns ").isPrefixOf l then .ROUGHNESS_MAP
  else if (str "map_d ").isPrefixOf l then .ALPHA_MAP
  else if (str "Ka ").isPrefixOf l then .AMBIENT
  else if (str "Kd ").isPrefixOf l then .DIFFUSE
  else if (str "Ks ").isPrefixOf l then .SPECULAR
  else if (str "Ns ").isPrefixOf l then .ROUGHNESS
  else if (str "d ").isPrefixOf l then .ALPHA
  else if (str "# ").isPrefixOf l then .COMMENT
  else if l.isEmpty then .BLANK
  else .UNKNOWN

/-- MathParser::parseVec3 on the whitespace tokens of a line: the keyword is
skipped, three floats are extracted, and only the stream fail state is checked
afterwards — content left after the third float is never examined. -/
def parseVec3toks : List Str → Option Vec3
  | _ :: t1 :: t2 :: t3 :: _ =>
    match floatPrefixC t1 with
    | none => none
    | some (x, r1) =>
      if !r1.isEmpty then none
      else
        match floatPrefixC t2 with
        | none => none
        | some (y, r2) =>
          if !r2.isEmpty then none
          else
            match floatPrefixC t3 with
            | none => none
            | some (z, _) => some ⟨x, y, z⟩
  | _ => none

def parseVec3 (l : Str) : Option Vec3 := parseVec3toks (tokensC l)

/-- MathParser::parseVec2 on the whitespace tokens of a line. -/
def parseVec2toks : List Str → Option Vec2
  | _ :: t1 :: t2 :: _ =>
    match floatPrefixC t1 with
    | none => none
    | some (x, r1) =>
      if !r1.isEmpty then none
      else
        match floatPrefixC t2 with
        | none => none
        | some (y, _) => some ⟨x, y⟩
  | _ => none

def parseVec2 (l : Str) : Option Vec2 := parseVec2toks (tokensC l)

/-- MathParser::parseFloat on the whitespace tokens of a line. -/
def parseFloatToks : List Str → Option ℚ
  | _ :: t1 :: _ => (floatPrefixC t1).map (·.1)
  | _ => none

def parseFloat (l : Str) : Option ℚ := parseFloatToks (tokensC l)

/-- MTLLoader::setImageMap together with the call-site argument evaluation
`m_materials[current]->slot`, which dereferences a null handle (undefined
behaviour, modelled none) when the current material is not in the table. The
image decode is the external collaborator; the source does not check its
result before using it (undefined behaviour on failure, modelled none). -/
def setImageMap (fs : Fs) (st : MTLState) (lg : Log) (line : Str)
    (get : Material → Option ImageData) (set : Material → Option ImageData → Material) :
    Option (Bool × MTLState × Log) :=
  match lookupVal st.materials st.currentMaterial with
  | none => none
  | some mat =>
    match (tokensC line).drop 1 with
    | [] => some (false, st, lg)
    | path :: _ =>
      let p := trimC path
      match fs.decodeImage (st.workingDirectory ++ p) with
      | none => none
      | some img0 =>
        let img := { img0 with name := fileNameFromPath p }
        if st.materials.isEmpty then some (false, st, lg)
        else
          let lg := if (get mat).isSome then lg.warn (.dupImageMap st.filePath st.line) else lg
          some (true, { st with materials := mapSet st.materials st.currentMaterial (set mat (some img)) }, lg)

/-- The line loop of MTLLoader::loadMaterialFile. A false first component is
the source returning false; none models undefined behaviour (a reflectance or
map directive arriving while the current material name is not in the table
dereferences a null handle). -/
def mtlLines (fs : Fs) : MTLState → Log → List Str → Option (Bool × MTLState × Log)
  | st, lg, [] => some (true, st, lg)
  | st, lg, l :: ls =>
    let line := trimC l
    match mtlIdentifier line with
    | .NEW_MATERIAL =>
      match (tokensC line).drop 1 with
      | [] => some (false, st, lg)
      | name :: _ =>
        mtlLines fs { st with materials := mapSet st.materials name (mkMaterial name),
                              currentMaterial := name, line := st.line + 1 } lg ls
    | .AMBIENT_MAP =>
      match setImageMap fs st lg line (·.ambientMap) (fun m i => { m with ambientMap := i }) with
      | none => none
      | some (false, st', lg') => some (false, st', lg')
      | some (true, st', lg') => mtlLines fs { st' with line := st'.line + 1 } lg' ls
    | .DIFFUSE_MAP =>
      match setImageMap fs st lg line (·.diffuseMap) (fun m i => { m with diffuseMap := i }) with
      | none => none
      | some (false, st', lg') => some (false, st', lg')
      | some (true, st', lg') => mtlLines fs { st' with line := st'.line + 1 } lg' ls
    | .SPECULAR_MAP =>
      match setImageMap fs st lg line (·.specularMap) (fun m i => { m with specularMap := i }) with
      | none => none
      | some (false, st', lg') => some (false, st', lg')
      | some (true, st', lg') => mtlLines fs { st' with line := st'.line + 1 } lg' ls
    | .ROUGHNESS_MAP =>
      match setImageMap fs st lg line (·.roughnessMap) (fun m i => { m with roughnessMap := i }) with
      | none => none
      | some (false, st', lg') => some (false, st', lg')
      | some (true, st', lg') => mtlLines fs { st' with line := st'.line + 1 } lg' ls
    | .ALPHA_MAP =>
      -- the source passes m_materials[...]->ambientMap for map_d as well
      match setImageMap fs st lg line (·.ambientMap) (fun m i => { m with ambientMap := i }) with
      | none => none
      | some (false, st', lg') => some (false, st', lg')
      | some (true, st', lg') => mtlLines fs { st' with line := st'.line + 1 } lg' ls
    | .AMBIENT =>
      match parseVec3 line with
      | none => some (false, st, lg.error (.mtlParseError st.filePath st.line))
      | some v =>
        match lookupVal st.materials st.currentMaterial with
        | none => none
        | some mat =>
          mtlLines fs { st with materials := mapSet st.materials st.currentMaterial { mat with ambient := v },
                                line := st.line + 1 } lg ls
    | .DIFFUSE =>
      match parseVec3 line with
      | none => some (false, st, lg.error (.mtlParseError st.filePath st.line))
      | some v =>
        match lookupVal st.materials st.currentMaterial with
        | none => none
        | some mat =>
          mtlLines fs { st with materials := mapSet st.materials st.currentMaterial { mat with diffuse := v },
                                line := st.line + 1 } lg ls
    | .SPECULAR =>
      match parseVec3 line with
      | none => some (false, st, lg.error (.mtlParseError st.filePath st.line))
      | some v =>
        match lookupVal st.materials st.currentMaterial with
        | none => none
        | some mat =>
          mtlLines fs { st with materials := mapSet st.materials st.currentMaterial { mat with specular := v },
                                line := st.line + 1 } lg ls
    | .ROUGHNESS =>
      match parseFloat line with
      | none => some (false, st, lg.error (.mtlParseError st.filePath st.line))
      | some v =>
        match lookupVal st.materials st.currentMaterial with
        | none => none
        | some mat =>
          mtlLines fs { st with materials := mapSet st.materials st.currentMaterial { mat with roughness := v },
                                line := st.line + 1 } lg ls
    | .ALPHA =>
      match parseFloat line with
      | none => some (false, st, lg.error (.mtlParseError st.filePath st.line))
      | some v =>
        match lookupVal st.materials st.currentMaterial with
        | none => none
        | some mat =>
          mtlLines fs { st with materials := mapSet st.materials st.currentMaterial { mat with alpha := v },
                                line := st.line + 1 } lg ls
    | .COMMENT => mtlLines fs { st with line := st.line + 1 } lg ls
    | .BLANK => mtlLines fs { st with line := st.line + 1 } lg ls
    | .UNKNOWN =>
      mtlLines fs { st with line := st.line + 1 } (lg.warn (.mtlUnknownIdent st.filePath st.line)) ls

/-- MTLLoader::loadMaterialFile. The path member is the trimmed argument, but
the file is opened by the untrimmed argument, as in the source. -/
def mtlLoadFile (fs : Fs) (st0 : MTLState) (lg : Log) (filePath : Str) :
    Option (Bool × MTLState × Log) :=
  let fp := trimC filePath
  let st := { st0 with filePath := fp }
  if !((str ".mtl").isSuffixOf fp) then some (false, st, lg)
  else
    let st := { st with workingDirectory := dirOf fp ++ str "/" }
    match fsLookup fs filePath with
    | none => some (false, st, lg)
    | some ls => mtlLines fs st lg ls

/-- MTLLoader::stealMaterials: moves the table out, leaving it empty. -/
def stealMaterials (st : MTLState) : (List (Str × Material)) × MTLState :=
  (st.materials, { st with materials := [] })

/-- OBJLoader::Identifier. -/
inductive OBJId
  | POSITION
  | NORMAL
  | UV
  | FACE
  | GROUP
  | NAMED_OBJECT
  | SMOOTH_SHADING
  | MATERIAL_LIB
  | USE_MATERIAL
  | COMMENT
  | BLANK
  | UNKNOWN
deriving DecidableEq

/-- OBJLoader::identifier: ordered keyword-with-separator matching over the
trimmed line. -/
def objIdentifier (l : Str) : OBJId :=
  if (str "v ").isPrefixOf l then .POSITION
  else if (str "vn ").isPrefixOf l then .NORMAL
  else if (str "vt ").isPrefixOf l then .UV
  else if (str "f ").isPrefixOf l then .FACE
  else if (str "g ").isPrefixOf l then .GROUP
  else if (str "o ").isPrefixOf l then .NAMED_OBJECT
  else if (str "s ").isPrefixOf l then .SMOOTH_SHADING
  else if (str "mtllib ").isPrefixOf l then .MATERIAL_LIB
  else if (str "usemtl ").isPrefixOf l then .USE_MATERIAL
  else if (str "# ").isPrefixOf l then .COMMENT
  else if l.isEmpty then .BLANK
  else .UNKNOWN

/-- OBJLoader::Config: the single recognized option. -/
structure Config where
  triangulate : Bool
deriving DecidableEq

/-- The mutable members of OBJLoader. groupID models the function-local static
counter of makeGroupAnonym (process lifetime, shared across loads); the mtl
field is the member MTLLoader. -/
structure LoaderState where
  config : Config
  line : Nat
  currentMeshName : Str
  smoothShadingEnabled : Bool
  positions : List Vec3
  normals : List Vec3
  textureUVs : List Vec2
  colors : List Vec3
  meshes : List (Str × Mesh)
  materials : List (Str × Material)
  filePath : Str
  workingDirectory : Str
  mtl : MTLState
  log : Log
  groupID : Nat
deriving DecidableEq

/-- A default-constructed OBJLoader. -/
def initLoader : LoaderState :=
  { config := ⟨true⟩, line := 0, currentMeshName := [], smoothShadingEnabled := false,
    positions := [], normals := [], textureUVs := [], colors := [], meshes := [],
    materials := [], filePath := [], workingDirectory := [], mtl := initMTL,
    log := emptyLog, groupID := 0 }

/-- OBJLoader::setShouldTriangulate. -/
def setShouldTriangulate (st : LoaderState) (b : Bool) : LoaderState :=
  { st with config := { st.config with triangulate := b } }

def logError (st : LoaderState) (m : Msg) : LoaderState := { st with log := st.log.error m }

def logWarn (st : LoaderState) (m : Msg) : LoaderState := { st with log := st.log.warn m }

def logInfo (st : LoaderState) (m : Msg) : LoaderState := { st with log := st.log.info m }

/-- OBJLoader::IndexType. -/
inductive IndexType
  | POSITION
  | NORMAL
  | UV
  | COLOR
  | FACE
deriving DecidableEq

/-- OBJLoader::calculateIndex. For a positive token the zero-based index is
returned. For a non-positive token each switch arm computes the relative index
but the value is discarded — the source has no return statement there — so
control always reaches the trailing assert(false) and falls off the end of a
value-returning function; that undefined behaviour is modelled as none. -/
def calculateIndex (st : LoaderState) (index : Int) (type : IndexType) : Option Nat :=
  if index > 0 then some (index - 1).toNat
  else
    let _ : Nat :=
      match type with
      | .POSITION => st.positions.length - index.natAbs
      | .NORMAL => st.normals.length - index.natAbs
      | .UV => st.textureUVs.length - index.natAbs
      | .COLOR => st.colors.length - index.natAbs
      | .FACE => st.positions.length - index.natAbs
    none

/-- The position-only branch of OBJLoader::parseFace: `while (stream >> v)`
pushes an index per extracted int and stops at the first failed extraction. -/
def facePlain (st : LoaderState) : List Str → Face → Option Face
  | [], f => some f
  | t :: ts, f =>
    match intPrefixC t with
    | none => some f
    | some (v, r) =>
      match calculateIndex st v .POSITION with
      | none => none
      | some i =>
        let f := { f with positionIndices := f.positionIndices ++ [i] }
        if r.isEmpty then facePlain st ts f else some f

/-- The shape `int char int` of one `v/vt` vertex token. -/
def tokIVI (t : Str) : Option (Int × Char × Int) :=
  match intPrefixC t with
  | none => none
  | some (v, r) =>
    match r with
    | c1 :: r1 =>
      match intPrefixC r1 with
      | none => none
      | some (vt, _) => some (v, c1, vt)
    | [] => none

/-- The shape `int char int char int` of one `v/vt/vn` vertex token. -/
def tokIVIVI (t : Str) : Option (Int × Char × Int × Char × Int) :=
  match intPrefixC t with
  | none => none
  | some (v, r) =>
    match r with
    | c1 :: r1 =>
      match intPrefixC r1 with
      | none => none
      | some (vt, r2) =>
        match r2 with
        | c2 :: r3 =>
          match intPrefixC r3 with
          | none => none
          | some (vn, _) => some (v, c1, vt, c2, vn)
        | [] => none
    | [] => none

/-- The v//vn branch of OBJLoader::parseFace: the while loop runs as long as
int, char, char, int extract from a vertex token; a non-slash delimiter is
logged as an error but parsing continues. -/
def faceVVN (st : LoaderState) : List Str → Face → Log → Option (Face × Log)
  | [], f, lg => some (f, lg)
  | t :: ts, f, lg =>
    match intPrefixC t with
    | none => some (f, lg)
    | some (v, r) =>
      match r with
      | c1 :: c2 :: r2 =>
        match intPrefixC r2 with
        | none => some (f, lg)
        | some (vn, _) =>
          let lg := if c1 != '/' || c2 != '/' then lg.error (.faceSyntax st.filePath st.line) else lg
          match calculateIndex st v .POSITION, calculateIndex st vn .NORMAL with
          | some pi, some ni =>
            faceVVN st ts { f with positionIndices := f.positionIndices ++ [pi],
                                   normalIndices := f.normalIndices ++ [ni] } lg
          | _, _ => none
      | _ => some (f, lg)

/-- The v/vt do-while of OBJLoader::parseFace: the already-extracted vertex is
processed first, then the loop continues while further tokens extract. -/
def faceVT (st : LoaderState) : (Int × Char × Int) → List Str → Face → Log → Option (Face × Log)
  | (v, c1, vt), ts, f, lg =>
    let lg := if c1 != '/' then lg.error (.faceSyntax st.filePath st.line) else lg
    match calculateIndex st v .POSITION, calculateIndex st vt .UV with
    | some pi, some ti =>
      let f := { f with positionIndices := f.positionIndices ++ [pi],
                        uvIndices := f.uvIndices ++ [ti] }
      match ts with
      | [] => some (f, lg)
      | t :: ts' =>
        match tokIVI t with
        | none => some (f, lg)
        | some q => faceVT st q ts' f lg
    | _, _ => none

/-- The v/vt/vn do-while of OBJLoader::parseFace. -/
def faceVTN (st : LoaderState) :
    (Int × Char × Int × Char × Int) → List Str → Face → Log → Option (Face × Log)
  | (v, c1, vt, c2, vn), ts, f, lg =>
    let lg := if c1 != '/' || c2 != '/' then lg.error (.faceSyntax st.filePath st.line) else lg
    match calculateIndex st v .POSITION, calculateIndex st vt .UV, calculateIndex st vn .NORMAL with
    | some pi, some ti, some ni =>
      let f := { f with positionIndices := f.positionIndices ++ [pi],
                        uvIndices := f.uvIndices ++ [ti],
                        normalIndices := f.normalIndices ++ [ni] }
      match ts with
      | [] => some (f, lg)
      | t :: ts' =>
        match tokIVIVI t with
        | none => some (f, lg)
        | some q => faceVTN st q ts' f lg
    | _, _, _ => none

/-- OBJLoader::parseFace. The syntax is selected from the whole line (the two
find calls) and the first vertex token (the peek after reading v, slash, vt);
a failed initial extraction leaves zeroed ints whose index resolution is
undefined behaviour (none). -/
def parseFace (st : LoaderState) (line : Str) : Option (Face × Log) :=
  let ts := (tokensC line).drop 1
  if hasInfixC (str "//") line then faceVVN st ts emptyFace st.log
  else if hasInfixC (str "/") line then
    match ts with
    | [] => none
    | t :: ts' =>
      match intPrefixC t with
      | none => none
      | some (v, r) =>
        match r with
        | c1 :: r1 =>
          match intPrefixC r1 with
          | none => none
          | some (vt, r2) =>
            match r2 with
            | '/' :: r3 =>
              match intPrefixC r3 with
              | none => none
              | some (vn, _) => faceVTN st (v, c1, vt, '/', vn) ts' emptyFace st.log
            | _ => faceVT st (v, c1, vt) ts' emptyFace st.log
        | [] => none
  else (facePlain st ts emptyFace).map (fun f => (f, st.log))

/-- One triangle of OBJLoader::triangulate: each attribute is taken at the
given source vertex positions, and an attribute sequence is carried over only
when it is non-empty on the source face. -/
def subFace (face : Face) (idxs : List Nat) : Face :=
  { positionIndices := idxs.map (fun i => face.positionIndices.getD i 0),
    normalIndices := if face.normalIndices.isEmpty then []
      else idxs.map (fun i => face.normalIndices.getD i 0),
    uvIndices := if face.uvIndices.isEmpty then []
      else idxs.map (fun i => face.uvIndices.getD i 0),
    colorIndices := if face.colorIndices.isEmpty then []
      else idxs.map (fun i => face.colorIndices.getD i 0) }

/-- OBJLoader::triangulate: a 3-vertex face is returned as is, a 4-vertex face
is split along the 0-2 diagonal, anything else throws. -/
def triangulate (face : Face) : Except String (List Face) :=
  if face.numVertices = 3 then .ok [face]
  else if face.numVertices ≠ 4 then .error "Currently only quads and tris are supported"
  else .ok [subFace face [0, 1, 2], subFace face [0, 2, 3]]

/-- OBJLoader::pushFace: append to the current mesh through operator[]. -/
def pushFace (st : LoaderState) (face : Face) : LoaderState :=
  let cur := mapGetD st.meshes st.currentMeshName emptyMesh
  { st with meshes := mapSet st.meshes st.currentMeshName { cur with faces := cur.faces ++ [face] } }

/-- OBJLoader::pushFaces. -/
def pushFaces (st : LoaderState) (faces : List Face) : LoaderState :=
  faces.foldl pushFace st

/-- OBJLoader::makeGroup. Note that the containment check uses the untrimmed
argument while the insertion key is the trimmed one, as in the source. -/
def makeGroup (st : LoaderState) (name : Str) : LoaderState :=
  let name' := trimC name
  let st := { st with currentMeshName := name' }
  if containsKey st.meshes name then st
  else { st with meshes := mapSet st.meshes name' { name := name', faces := [], material := none } }

/-- OBJLoader::makeGroupAnonym. The static counter groupID lives in the state
and is never modified anywhere — in particular not inside the name-search
do-while — so that loop exits only when its first candidate name is free and
otherwise repeats the same containment test forever (modelled as none). The
leading assert is a release no-op whose operator[] access default-inserts a
mesh under the current name when absent. -/
def makeGroupAnonym (st : LoaderState) : Option LoaderState :=
  let m0 := if containsKey st.meshes st.currentMeshName then st.meshes
            else st.meshes ++ [(st.currentMeshName, emptyMesh)]
  if (mapGetD m0 st.currentMeshName emptyMesh).faces.isEmpty then
    some { st with meshes := m0 }
  else
    let name := str "group" ++ Nat.toDigits 10 st.groupID
    if containsKey m0 name then none
    else some { st with meshes := mapSet m0 name { name := name, faces := [], material := none },
                        currentMeshName := name }

/-- OBJLoader::parseGroup: the group name is the raw remainder after the
keyword, which keeps its leading separator space. -/
def parseGroup (st : LoaderState) (l : Str) : LoaderState :=
  makeGroup st (restOfLine l)

/-- OBJLoader::parseSmoothShading. After `stream >> keyword` the next stream
character is the separating space, never a letter, so the word-syntax branch
of the source is unreachable for lines classified SMOOTH_SHADING and only the
number branch acts; a failed int extraction stores 0. -/
def parseSmoothShading (st : LoaderState) (line : Str) : Option LoaderState :=
  let tok := ((tokensC line).drop 1).headD []
  let toggle : Int :=
    match intPrefixC tok with
    | some (v, _) => v
    | none => 0
  if toggle ≠ 0 then
    if st.smoothShadingEnabled then some st
    else (makeGroupAnonym st).map (fun s => { s with smoothShadingEnabled := true })
  else
    if !st.smoothShadingEnabled then some st
    else (makeGroupAnonym st).map (fun s => { s with smoothShadingEnabled := false })

/-- OBJLoader::parseMaterialFilePath: unconditionally returns the trimmed
remainder of the line, so the nullopt branch at its call site is dead. -/
def parseMaterialFilePath (l : Str) : Option Str :=
  some (trimC (restOfLine l))

/-- OBJLoader::parseUseMaterial. Returns the source bool together with the
updated state; no diagnostic is recorded on any path. -/
def parseUseMaterial (st : LoaderState) (line : Str) : Bool × LoaderState :=
  if st.meshes.isEmpty then (false, st)
  else
    let name := trimC (restOfLine line)
    if !containsKey st.materials name then (false, st)
    else
      let cur := mapGetD st.meshes st.currentMeshName emptyMesh
      (true, { st with meshes := mapSet st.meshes st.currentMeshName
                         { cur with material := lookupVal st.materials name } })

/-- OBJLoader::reset. The source clears the line counter, current mesh name,
file path, the four attribute arrays, the mesh table and the logger — but not
m_materials, m_smoothShadingEnabled, the static group counter or the member
MTL loader. -/
def reset (st : LoaderState) : LoaderState :=
  { st with
    line := 0, currentMeshName := [], filePath := [],
    positions := [], normals := [], textureUVs := [], colors := [],
    meshes := [], log := emptyLog }

/-- OBJLoader::share (a const member): copies the arrays and the mesh-table
values into a snapshot. -/
def share (st : LoaderState) : OBJData :=
  { positions := st.positions, normals := st.normals, textureUVs := st.textureUVs,
    colors := st.colors, meshes := st.meshes.map (·.2),
    name := fileNameFromPath st.filePath }

/-- share as a state transformer, making its constness explicit. -/
def shareOp (st : LoaderState) : OBJData × LoaderState := (share st, st)

/-- How one load call ends: normal success, returning false, an escaping
exception, undefined behaviour, or a loop that never terminates. -/
inductive Outcome
  | ok
  | fail
  | exn
  | crash
  | hang
deriving DecidableEq

/-- One iteration of the line loop of OBJLoader::load, dispatching on the
classified line. An Outcome.ok result means the loop continues. -/
def stepLine (fs : Fs) (st : LoaderState) (line : Str) : Outcome × LoaderState :=
  match objIdentifier line with
  | .POSITION =>
    match parseVec3 line with
    | none => (.fail, logError st (.parseError st.filePath st.line))
    | some v => (.ok, { st with positions := st.positions ++ [v] })
  | .NORMAL =>
    match parseVec3 line with
    | none => (.fail, logError st (.parseError st.filePath st.line))
    | some v => (.ok, { st with normals := st.normals ++ [v] })
  | .UV =>
    match parseVec2 line with
    | none => (.fail, logError st (.parseError st.filePath st.line))
    | some v => (.ok, { st with textureUVs := st.textureUVs ++ [v] })
  | .FACE =>
    match parseFace st line with
    | none => (.crash, st)
    | some (f, lg) =>
      let st := { st with log := lg }
      if st.config.triangulate then
        match triangulate f with
        | .error _ => (.exn, st)
        | .ok tris => (.ok, pushFaces st tris)
      else (.ok, pushFace st f)
  | .SMOOTH_SHADING =>
    match parseSmoothShading st line with
    | none => (.hang, st)
    | some st' => (.ok, st')
  | .NAMED_OBJECT => (.ok, parseGroup st line)
  | .GROUP => (.ok, parseGroup st line)
  | .MATERIAL_LIB =>
    match parseMaterialFilePath line with
    | none => (.fail, st)
    | some p =>
      match mtlLoadFile fs st.mtl st.log (st.workingDirectory ++ p) with
      | none => (.crash, st)
      | some res =>
        (.ok, { st with materials := (stealMaterials res.2.1).1,
                        mtl := (stealMaterials res.2.1).2,
                        log := res.2.2 })
  | .USE_MATERIAL => (.ok, (parseUseMaterial st line).2)
  | .COMMENT => (.ok, st)
  | .BLANK => (.ok, st)
  | .UNKNOWN => (.ok, logWarn st (.unknownIdent st.filePath st.line))

/-- The getline loop of OBJLoader::load: each raw line is trimmed, dispatched,
and the 0-based line counter advances when the iteration completes. -/
def loadLines (fs : Fs) : LoaderState → List Str → Outcome × LoaderState
  | st, [] => (.ok, st)
  | st, l :: ls =>
    match stepLine fs st (trimC l) with
    | (.ok, st') => loadLines fs { st' with line := st'.line + 1 } ls
    | r => r

/-- OBJLoader::load. Note that detail::trim is applied to the member before
the argument is assigned to it, so the stored path is the untrimmed argument;
shrink() does not change the modelled state. -/
def load (fs : Fs) (st0 : LoaderState) (filePath : Str) : Outcome × LoaderState :=
  let st := reset st0
  let st := { st with filePath := filePath, workingDirectory := dirOf filePath ++ str "/" }
  if !((str ".obj").isSuffixOf filePath) then
    (.fail, logError st (.wrongExtension filePath))
  else
    match fsLookup fs filePath with
    | none => (.fail, st)
    | some ls =>
      match loadLines fs st ls with
      | (.ok, st') =>
        if st'.positions.isEmpty then (.fail, logError st' (.noPositions st'.filePath))
        else (.ok, logInfo st' (.loadSuccess st'.filePath))
      | r => r

/- Concrete fixtures used by the theorems below. -/

/-- An OBJ file whose final line turns smooth shading on. -/
def objFileP : List Str := [str "g a", str "v 0 0 0", str "f 1 1 1", str "s 1"]

/-- An OBJ file with a smooth-shading boundary between two faces. -/
def objFileC : List Str := [str "g a", str "v 0 0 0", str "f 1 1 1", str "s 0", str "f 1 1 1"]

/-- An OBJ file that re-enters group a after adding a face to it. -/
def objFileM : List Str := [str "g a", str "v 0 0 0", str "f 1 1 1", str "g b", str "g a"]

/-- An OBJ file with a 5-vertex face. -/
def objFilePent : List Str := [str "g a", str "v 0 0 0", str "f 1 1 1 1 1"]

/-- An OBJ file with unparsed content after the three position fields. -/
def objFileJunk : List Str := [str "v 1 2 3 junk"]

/-- An OBJ file whose usemtl names a material absent from the empty table. -/
def objFileUM : List Str := [str "v 0 0 0", str "g a", str "usemtl nope"]

/-- The modelled filesystem holding the fixture files; no image decodes. -/
def theFs : Fs :=
  { files := [(str "p.obj", objFileP), (str "c.obj", objFileC), (str "m.obj", objFileM),
              (str "pent.obj", objFilePent), (str "junk.obj", objFileJunk),
              (str "um.obj", objFileUM)],
    decodeImage := fun _ => none }

/-- A triangle face over position index 0. -/
def face0 : Face := ⟨[0, 0, 0], [], [], []⟩

/-- A 5-vertex face over position index 0, as parseFace yields it from
the line `f 1 1 1 1 1`. -/
def pentFace : Face := ⟨[0, 0, 0, 0, 0], [], [], []⟩

/-- A quad face with all four attribute sequences populated. -/
def qf : Face := ⟨[10, 11, 12, 13], [20, 21, 22, 23], [30, 31, 32, 33], [40, 41, 42, 43]⟩

/-- A triangle face with only position indices. -/
def tf : Face := ⟨[7, 8, 9], [], [], []⟩

/-- A loader state with three parsed positions. -/
def st3pos : LoaderState := { initLoader with positions := [⟨0, 0, 0⟩, ⟨0, 0, 0⟩, ⟨0, 0, 0⟩] }

/-- A loader whose current mesh a already holds one face. -/
def st6a : LoaderState :=
  { initLoader with meshes := [(str "a", ⟨str "a", [face0], none⟩)], currentMeshName := str "a" }

/-- A loader mid-file: smoothing on, the anonymous mesh group0 exists, is
current and already holds a face. -/
def st6b : LoaderState :=
  { initLoader with
    meshes := [(str "a", ⟨str "a", [face0], none⟩), (str "group0", ⟨str "group0", [face0], none⟩)],
    currentMeshName := str "group0", smoothShadingEnabled := true }

/-- A loader whose current mesh a exists but holds no faces. -/
def st6c : LoaderState :=
  { initLoader with meshes := [(str "a", ⟨str "a", [], none⟩)], currentMeshName := str "a" }

/-- A loader with triangulation disabled and an empty current mesh a. -/
def stNT : LoaderState :=
  { initLoader with
    config := ⟨false⟩,
    meshes := [(str "a", ⟨str "a", [], none⟩)], currentMeshName := str "a" }

/-- A loader with a current mesh a and a material table holding m. -/
def st4 : LoaderState :=
  { initLoader with
    meshes := [(str "a", ⟨str "a", [], none⟩)], currentMeshName := str "a",
    materials := [(str "m", mkMaterial (str "m"))] }

/-- The result of the nested MTL load for a missing file missing.mtl from an
empty working directory context. -/
def mtlRes10 : Bool × MTLState × Log :=
  (false, { initMTL with filePath := str "missing.mtl", workingDirectory := str "/" }, emptyLog)

/- Helper lemmas. -/

/-- A list other than nil has isEmpty false. -/
theorem isEmpty_false_of_ne {α : Type} (l : List α) (h : l ≠ []) : l.isEmpty = false := by
  cases l with
  | nil => exact absurd rfl h
  | cons a t => rfl

/-- Overwriting a present key makes its lookup find the new pair. -/
theorem find_overwrite {α : Type} (k : Str) (v : α) :
    ∀ m : List (Str × α),
      (m.map (fun p => if p.1 == k then (k, v) else p)).find? (fun p => p.1 == k) =
        if m.any (fun p => p.1 == k) then some (k, v) else none := by
  intro m
  induction m with
  | nil => rfl
  | cons p t ih =>
    cases hpk : (p.1 == k) with
    | true =>
      rw [List.map_cons, if_pos hpk, List.any_cons, hpk, Bool.true_or, if_pos rfl]
      exact List.find?_cons_of_pos _ (by simp)
    | false =>
      rw [List.map_cons, if_neg (by simp [hpk]), List.any_cons, hpk, Bool.false_or,
        List.find?_cons_of_neg _ (by simp [hpk])]
      exact ih

/-- find? skips an entirely non-matching leading segment. -/
theorem find_append_none {α : Type} (pred : Str × α → Bool) :
    ∀ m l : List (Str × α), m.any pred = false → (m ++ l).find? pred = l.find? pred := by
  intro m l
  induction m with
  | nil => intro _; rfl
  | cons p t ih =>
    intro h
    simp only [List.any_cons, Bool.or_eq_false_iff] at h
    rw [List.cons_append, List.find?_cons_of_neg _ (by simp [h.1])]
    exact ih h.2

/-- Looking up the key just written through operator[] yields the new value. -/
theorem lookupVal_mapSet_self {α : Type} (m : List (Str × α)) (k : Str) (v : α) :
    lookupVal (mapSet m k v) k = some v := by
  unfold mapSet lookupVal
  cases hany : m.any (fun p => p.1 == k) with
  | true =>
    rw [if_pos rfl, find_overwrite, if_pos hany]
    rfl
  | false =>
    rw [if_neg (by simp), find_append_none _ _ _ hany,
      List.find?_cons_of_pos _ (by simp)]
    rfl

/-- C1: for a positive face token calculateIndex returns the zero-based index
token - 1, but for a negative token it does not return the relative index
length - |token| (with three positions parsed, -1 should give 2) and for a
zero token it does not raise a parse error: in both non-positive cases the
computed value is discarded and control falls off the function (undefined
behaviour / assert, modelled none). -/
theorem calculateIndex_dead_relative_branch :
    calculateIndex st3pos 2 .POSITION = some 1 ∧
    calculateIndex st3pos (-1) .POSITION = none ∧
    calculateIndex st3pos 0 .POSITION = none := by
  decide

/-- C5: re-entering group a after faces were appended to it replaces the mesh
by a fresh empty one — makeGroup checks containment of the untrimmed name but
inserts under the trimmed name, so the check never fires — yet the load still
reports success. -/
theorem group_reentry_clears_faces :
    (load theFs initLoader (str "m.obj")).1 = .ok ∧
    lookupVal (load theFs initLoader (str "m.obj")).2.meshes (str "a") =
      some { name := str "a", faces := [], material := none } := by
  decide

/-- C6: the first genuine smooth-shading change with a non-empty current mesh
does allocate the fresh mesh group0 and makes it current, an empty current
mesh is reused, and a repeated toggle value changes nothing — but the second
allocation never terminates (none), because the name-search loop retests the
same name group0 forever. -/
theorem second_anonymous_group_never_terminates :
    (parseSmoothShading st6a (str "s 1")).map
        (fun s => (s.currentMeshName, s.smoothShadingEnabled, containsKey s.meshes (str "group0"))) =
      some (str "group0", true, true) ∧
    (parseSmoothShading st6c (str "s 1")).map
        (fun s => (s.meshes, s.smoothShadingEnabled)) = some (st6c.meshes, true) ∧
    parseSmoothShading st6a (str "s 0") = some st6a ∧
    parseSmoothShading st6b (str "s 0") = none := by
  decide

/-- Counterexample to C2: with triangulation disabled a 5-vertex face is
stored as parsed and the load reports success instead of failing fatally. -/
theorem pentagon_without_triangulation_loads :
    (load theFs (setShouldTriangulate initLoader false) (str "pent.obj")).1 = .ok ∧
    (lookupVal (load theFs (setShouldTriangulate initLoader false) (str "pent.obj")).2.meshes
        (str "a")).map (fun m => m.faces.map (·.numVertices)) = some [5] := by
  decide

/-- Counterexample to C4: a usemtl naming a material absent from the (empty)
material table neither logs an error nor aborts — the load succeeds, the
error list stays empty and the mesh keeps no material. -/
theorem unknown_usemtl_load_succeeds :
    (load theFs initLoader (str "um.obj")).1 = .ok ∧
    (load theFs initLoader (str "um.obj")).2.log.errors = [] ∧
    (lookupVal (load theFs initLoader (str "um.obj")).2.meshes (str "a")).map (·.material) =
      some none := by
  decide

/-- Counterexample to C7: a position line with unparsed content after the
three fields is accepted — the load succeeds and stores the three floats
instead of aborting. -/
theorem trailing_garbage_position_accepted :
    (load theFs initLoader (str "junk.obj")).1 = .ok ∧
    (load theFs initLoader (str "junk.obj")).2.positions.length = 1 ∧
    (load theFs initLoader (str "junk.obj")).2.log.errors = [] := by
  decide

/-- Counterexample to C8: the same file c.obj loaded on a fresh loader and on
a loader that previously completed a different load (which left the
smooth-shading flag set, since reset does not clear it) produces different
snapshots, although both loads succeed. -/
theorem stale_state_changes_second_load :
    (load theFs initLoader (str "c.obj")).1 = .ok ∧
    (load theFs (load theFs initLoader (str "p.obj")).2 (str "c.obj")).1 = .ok ∧
    (share (load theFs initLoader (str "c.obj")).2).meshes.map (fun m => (m.name, m.faces.length)) ≠
      (share (load theFs (load theFs initLoader (str "p.obj")).2 (str "c.obj")).2).meshes.map
        (fun m => (m.name, m.faces.length)) := by
  decide

/-- C3: triangulating a parsed 4-vertex face yields exactly two faces taking
the attribute values at source vertex positions (0,1,2) and (0,2,3); each of
the normal/uv/color sequences is split by the same pattern exactly when it is
non-empty on the source face; a 3-vertex face is returned unchanged as a
single-element result. -/
theorem triangulate_quad_split (f g : Face)
    (h4 : f.numVertices = 4) (h3 : g.numVertices = 3) :
    (∃ F1 F2, triangulate f = .ok [F1, F2] ∧
      F1.positionIndices =
        [f.positionIndices.getD 0 0, f.positionIndices.getD 1 0, f.positionIndices.getD 2 0] ∧
      F2.positionIndices =
        [f.positionIndices.getD 0 0, f.positionIndices.getD 2 0, f.positionIndices.getD 3 0] ∧
      (f.normalIndices ≠ [] →
        F1.normalIndices =
          [f.normalIndices.getD 0 0, f.normalIndices.getD 1 0, f.normalIndices.getD 2 0] ∧
        F2.normalIndices =
          [f.normalIndices.getD 0 0, f.normalIndices.getD 2 0, f.normalIndices.getD 3 0]) ∧
      (f.normalIndices = [] → F1.normalIndices = [] ∧ F2.normalIndices = []) ∧
      (f.uvIndices ≠ [] →
        F1.uvIndices = [f.uvIndices.getD 0 0, f.uvIndices.getD 1 0, f.uvIndices.getD 2 0] ∧
        F2.uvIndices = [f.uvIndices.getD 0 0, f.uvIndices.getD 2 0, f.uvIndices.getD 3 0]) ∧
      (f.uvIndices = [] → F1.uvIndices = [] ∧ F2.uvIndices = []) ∧
      (f.colorIndices ≠ [] →
        F1.colorIndices =
          [f.colorIndices.getD 0 0, f.colorIndices.getD 1 0, f.colorIndices.getD 2 0] ∧
        F2.colorIndices =
          [f.colorIndices.getD 0 0, f.colorIndices.getD 2 0, f.colorIndices.getD 3 0]) ∧
      (f.colorIndices = [] → F1.colorIndices = [] ∧ F2.colorIndices = [])) ∧
    triangulate g = .ok [g] := by
  constructor
  · refine ⟨subFace f [0, 1, 2], subFace f [0, 2, 3], ?_, ?_, ?_, ?_, ?_, ?_, ?_, ?_, ?_⟩
    · simp [triangulate, h4]
    · simp [subFace]
    · simp [subFace]
    · intro h
      constructor <;> simp [subFace, isEmpty_false_of_ne _ h]
    · intro h
      constructor <;> simp [subFace, h]
    · intro h
      constructor <;> simp [subFace, isEmpty_false_of_ne _ h]
    · intro h
      constructor <;> simp [subFace, h]
    · intro h
      constructor <;> simp [subFace, isEmpty_false_of_ne _ h]
    · intro h
      constructor <;> simp [subFace, h]
  · simp [triangulate, h3]

/-- Witness for C3 at a concrete quad with all attributes and a concrete
position-only triangle. -/
theorem triangulate_quad_split_witness :
    (qf.numVertices = 4 ∧ tf.numVertices = 3) ∧
    ((∃ F1 F2, triangulate qf = .ok [F1, F2] ∧
      F1.positionIndices =
        [qf.positionIndices.getD 0 0, qf.positionIndices.getD 1 0, qf.positionIndices.getD 2 0] ∧
      F2.positionIndices =
        [qf.positionIndices.getD 0 0, qf.positionIndices.getD 2 0, qf.positionIndices.getD 3 0] ∧
      (qf.normalIndices ≠ [] →
        F1.normalIndices =
          [qf.normalIndices.getD 0 0, qf.normalIndices.getD 1 0, qf.normalIndices.getD 2 0] ∧
        F2.normalIndices =
          [qf.normalIndices.getD 0 0, qf.normalIndices.getD 2 0, qf.normalIndices.getD 3 0]) ∧
      (qf.normalIndices = [] → F1.normalIndices = [] ∧ F2.normalIndices = []) ∧
      (qf.uvIndices ≠ [] →
        F1.uvIndices = [qf.uvIndices.getD 0 0, qf.uvIndices.getD 1 0, qf.uvIndices.getD 2 0] ∧
        F2.uvIndices = [qf.uvIndices.getD 0 0, qf.uvIndices.getD 2 0, qf.uvIndices.getD 3 0]) ∧
      (qf.uvIndices = [] → F1.uvIndices = [] ∧ F2.uvIndices = []) ∧
      (qf.colorIndices ≠ [] →
        F1.colorIndices =
          [qf.colorIndices.getD 0 0, qf.colorIndices.getD 1 0, qf.colorIndices.getD 2 0] ∧
        F2.colorIndices =
          [qf.colorIndices.getD 0 0, qf.colorIndices.getD 2 0, qf.colorIndices.getD 3 0]) ∧
      (qf.colorIndices = [] → F1.colorIndices = [] ∧ F2.colorIndices = [])) ∧
    triangulate tf = .ok [tf]) :=
  ⟨⟨by decide, by decide⟩, triangulate_quad_split qf tf (by decide) (by decide)⟩

/-- C2 as the code has it: when triangulation is enabled a face whose vertex
count is neither 3 nor 4 makes the load fail fatally (triangulate throws), but
when triangulation has been disabled via setShouldTriangulate(false) the face
is stored as parsed by pushFace and the line loop continues — no failure. -/
theorem face_count_handling (f : Face) (fs : Fs) (st : LoaderState) (line : Str)
    (fl : Face × Log)
    (h3 : f.numVertices ≠ 3) (h4 : f.numVertices ≠ 4)
    (hc : st.config.triangulate = false)
    (hid : objIdentifier line = .FACE)
    (hp : parseFace st line = some fl) :
    triangulate f = .error "Currently only quads and tris are supported" ∧
    stepLine fs st line = (.ok, pushFace { st with log := fl.2 } fl.1) := by
  constructor
  · simp [triangulate, h3, h4]
  · simp [stepLine, hid, hp, hc]

/-- Witness for the amended C2 at the 5-vertex face of the line f 1 1 1 1 1 on
a loader with triangulation disabled. -/
theorem face_count_handling_witness :
    (pentFace.numVertices ≠ 3 ∧ pentFace.numVertices ≠ 4 ∧
     stNT.config.triangulate = false ∧
     objIdentifier (str "f 1 1 1 1 1") = .FACE ∧
     parseFace stNT (str "f 1 1 1 1 1") = some (pentFace, emptyLog)) ∧
    (triangulate pentFace = .error "Currently only quads and tris are supported" ∧
     stepLine theFs stNT (str "f 1 1 1 1 1") =
       (.ok, pushFace { stNT with log := emptyLog } pentFace)) :=
  ⟨⟨by decide, by decide, by decide, by decide, by decide⟩,
   face_count_handling pentFace theFs stNT (str "f 1 1 1 1 1") (pentFace, emptyLog)
     (by decide) (by decide) (by decide) (by decide) (by decide)⟩

/-- C4 as the code has it: load() discards the bool returned by
parseUseMaterial and always continues; parseUseMaterial itself never logs —
when the mesh table is empty or the name is missing from the material table
the state is returned unchanged (no error, no abort), and only when the name
is present and a mesh exists does the current mesh receive the shared
material-table entry. -/
theorem useMaterial_result_discarded (fs : Fs) (st : LoaderState) (line : Str)
    (hid : objIdentifier line = .USE_MATERIAL) :
    stepLine fs st line = (.ok, (parseUseMaterial st line).2) ∧
    (parseUseMaterial st line).2.log = st.log ∧
    (st.meshes.isEmpty = true ∨ containsKey st.materials (trimC (restOfLine line)) = false →
      (parseUseMaterial st line).2 = st) ∧
    (st.meshes.isEmpty = false → containsKey st.materials (trimC (restOfLine line)) = true →
      lookupVal (parseUseMaterial st line).2.meshes st.currentMeshName =
        some { mapGetD st.meshes st.currentMeshName emptyMesh with
               material := lookupVal st.materials (trimC (restOfLine line)) }) := by
  refine ⟨?_, ?_, ?_, ?_⟩
  · simp [stepLine, hid]
  · cases h1 : st.meshes.isEmpty with
    | true => simp [parseUseMaterial, h1]
    | false =>
      cases h2 : containsKey st.materials (trimC (restOfLine line)) with
      | true => simp [parseUseMaterial, h1, h2]
      | false => simp [parseUseMaterial, h1, h2]
  · intro h
    rcases h with h | h
    · simp [parseUseMaterial, h]
    · cases h1 : st.meshes.isEmpty with
      | true => simp [parseUseMaterial, h1]
      | false => simp [parseUseMaterial, h1, h]
  · intro h1 h2
    simp [parseUseMaterial, h1, h2, lookupVal_mapSet_self]

/-- Witness for the amended C4 at a loader with mesh a current and material m
in the table, on the line usemtl m. -/
theorem useMaterial_result_discarded_witness :
    objIdentifier (str "usemtl m") = .USE_MATERIAL ∧
    (stepLine theFs st4 (str "usemtl m") = (.ok, (parseUseMaterial st4 (str "usemtl m")).2) ∧
     (parseUseMaterial st4 (str "usemtl m")).2.log = st4.log ∧
     (st4.meshes.isEmpty = true ∨
        containsKey st4.materials (trimC (restOfLine (str "usemtl m"))) = false →
       (parseUseMaterial st4 (str "usemtl m")).2 = st4) ∧
     (st4.meshes.isEmpty = false →
        containsKey st4.materials (trimC (restOfLine (str "usemtl m"))) = true →
       lookupVal (parseUseMaterial st4 (str "usemtl m")).2.meshes st4.currentMeshName =
         some { mapGetD st4.meshes st4.currentMeshName emptyMesh with
                material := lookupVal st4.materials (trimC (restOfLine (str "usemtl m"))) })) :=
  ⟨by decide, useMaterial_result_discarded theFs st4 (str "usemtl m") (by decide)⟩

/-- C7 as the code has it: for v, vn, vt lines the parser skips the keyword
token and reads exactly 3, 3, 2 float fields; a missing or malformed field
aborts the load fatally with a logged parse error, but content remaining
after the expected fields is ignored, never checked (the parse depends only
on the keyword and the expected-arity tokens). -/
theorem numeric_line_arity (fs : Fs) (st : LoaderState) (lv lvn lvt : Str)
    (kw t1 t2 t3 : Str) (rest : List Str) (kw2 u1 u2 : Str) (rest2 : List Str)
    (hv : objIdentifier lv = .POSITION)
    (hn : objIdentifier lvn = .NORMAL)
    (ht : objIdentifier lvt = .UV)
    (htk : tokensC lv = kw :: t1 :: t2 :: t3 :: rest)
    (htk2 : tokensC lvt = kw2 :: u1 :: u2 :: rest2) :
    parseVec3 lv = parseVec3toks [kw, t1, t2, t3] ∧
    parseVec2 lvt = parseVec2toks [kw2, u1, u2] ∧
    parseVec3toks [kw, t1, t2] = none ∧
    parseVec2toks [kw2, u1] = none ∧
    (parseVec3 lv = none →
      stepLine fs st lv = (.fail, logError st (.parseError st.filePath st.line))) ∧
    (parseVec3 lvn = none →
      stepLine fs st lvn = (.fail, logError st (.parseError st.filePath st.line))) ∧
    (parseVec2 lvt = none →
      stepLine fs st lvt = (.fail, logError st (.parseError st.filePath st.line))) := by
  refine ⟨?_, ?_, rfl, rfl, ?_, ?_, ?_⟩
  · rw [parseVec3, htk]
    simp only [parseVec3toks]
  · rw [parseVec2, htk2]
    simp only [parseVec2toks]
  · intro h
    simp [stepLine, hv, h]
  · intro h
    simp [stepLine, hn, h]
  · intro h
    simp [stepLine, ht, h]

/-- Witness for the amended C7: a position line whose second field is not a
float, a normal line missing two fields, and a texcoord line with a trailing
extra token. -/
theorem numeric_line_arity_witness :
    (objIdentifier (str "v a b c") = .POSITION ∧
     objIdentifier (str "vn 1") = .NORMAL ∧
     objIdentifier (str "vt 1 2 3") = .UV ∧
     tokensC (str "v a b c") = str "v" :: str "a" :: str "b" :: str "c" :: [] ∧
     tokensC (str "vt 1 2 3") = str "vt" :: str "1" :: str "2" :: [str "3"]) ∧
    (parseVec3 (str "v a b c") = parseVec3toks [str "v", str "a", str "b", str "c"] ∧
     parseVec2 (str "vt 1 2 3") = parseVec2toks [str "vt", str "1", str "2"] ∧
     parseVec3toks [str "v", str "a", str "b"] = none ∧
     parseVec2toks [str "vt", str "1"] = none ∧
     (parseVec3 (str "v a b c") = none →
       stepLine theFs initLoader (str "v a b c") =
         (.fail, logError initLoader (.parseError initLoader.filePath initLoader.line))) ∧
     (parseVec3 (str "vn 1") = none →
       stepLine theFs initLoader (str "vn 1") =
         (.fail, logError initLoader (.parseError initLoader.filePath initLoader.line))) ∧
     (parseVec2 (str "vt 1 2 3") = none →
       stepLine theFs initLoader (str "vt 1 2 3") =
         (.fail, logError initLoader (.parseError initLoader.filePath initLoader.line)))) :=
  ⟨⟨by decide, by decide, by decide, by decide, by decide⟩,
   numeric_line_arity theFs initLoader (str "v a b c") (str "vn 1") (str "vt 1 2 3")
     (str "v") (str "a") (str "b") (str "c") [] (str "vt") (str "1") (str "2") [str "3"]
     (by decide) (by decide) (by decide) (by decide) (by decide)⟩

/-- C8 as the code has it: reset — the first action of load — clears the line
counter, current mesh name, file path, the attribute arrays, the mesh table
and the diagnostics, but leaves the material table, the smooth-shading flag,
the anonymous-group counter and the member MTL loader untouched, so those can
carry over from a previous load into the next one. -/
theorem reset_preserves_materials_and_smoothing (st : LoaderState) :
    (reset st).materials = st.materials ∧
    (reset st).smoothShadingEnabled = st.smoothShadingEnabled ∧
    (reset st).groupID = st.groupID ∧
    (reset st).mtl = st.mtl ∧
    (reset st).config = st.config ∧
    (reset st).line = 0 ∧
    (reset st).currentMeshName = [] ∧
    (reset st).filePath = [] ∧
    (reset st).positions = [] ∧
    (reset st).normals = [] ∧
    (reset st).textureUVs = [] ∧
    (reset st).colors = [] ∧
    (reset st).meshes = [] ∧
    (reset st).log = emptyLog :=
  ⟨rfl, rfl, rfl, rfl, rfl, rfl, rfl, rfl, rfl, rfl, rfl, rfl, rfl, rfl⟩

/-- C9: share is const and pure — it leaves the loader state unchanged, two
calls without an intervening load return snapshots with identical content,
and the snapshot carries the arrays, the mesh-table values in table order,
and the name derived from the stored file path. -/
theorem share_idempotent_and_pure (st : LoaderState) :
    (shareOp st).2 = st ∧
    (shareOp ((shareOp st).2)).1 = (shareOp st).1 ∧
    (shareOp st).1.positions = st.positions ∧
    (shareOp st).1.normals = st.normals ∧
    (shareOp st).1.textureUVs = st.textureUVs ∧
    (shareOp st).1.colors = st.colors ∧
    (shareOp st).1.meshes = st.meshes.map (·.2) ∧
    (shareOp st).1.name = fileNameFromPath st.filePath :=
  ⟨rfl, rfl, rfl, rfl, rfl, rfl, rfl, rfl⟩

/-- C10: a mtllib directive never aborts the load and the orchestrator records
nothing about it — the nested material load's bool result is discarded, the
loader's material table is replaced by whatever the MTL loader holds after
the attempt (stolen, leaving the MTL table empty), and the log becomes
whatever the nested load left; when the .mtl path has the wrong extension or
the file cannot be opened, the nested load returns false having changed
neither its material table nor the log. -/
theorem mtllib_failure_discarded (fs : Fs) (st : LoaderState) (line : Str)
    (res : Bool × MTLState × Log)
    (hid : objIdentifier line = .MATERIAL_LIB)
    (hres : mtlLoadFile fs st.mtl st.log
      (st.workingDirectory ++ trimC (restOfLine line)) = some res) :
    stepLine fs st line =
      (.ok, { st with materials := (stealMaterials res.2.1).1,
                      mtl := (stealMaterials res.2.1).2,
                      log := res.2.2 }) ∧
    ((str ".mtl").isSuffixOf (trimC (st.workingDirectory ++ trimC (restOfLine line))) = false ∨
      fsLookup fs (st.workingDirectory ++ trimC (restOfLine line)) = none →
      res.1 = false ∧ res.2.1.materials = st.mtl.materials ∧ res.2.2 = st.log) := by
  constructor
  · simp [stepLine, hid, parseMaterialFilePath, hres]
  · intro h
    rw [mtlLoadFile] at hres
    cases hext : (str ".mtl").isSuffixOf (trimC (st.workingDirectory ++ trimC (restOfLine line))) with
    | false =>
      simp [hext] at hres
      obtain rfl := hres
      exact ⟨rfl, rfl, rfl⟩
    | true =>
      have hlk : fsLookup fs (st.workingDirectory ++ trimC (restOfLine line)) = none := by
        rcases h with h | h
        · rw [hext] at h
          exact absurd h (by simp)
        · exact h
      simp [hext, hlk] at hres
      obtain rfl := hres
      exact ⟨rfl, rfl, rfl⟩

/-- Witness for C10 at a mtllib directive naming a file absent from the
filesystem, on a fresh loader. -/
theorem mtllib_failure_discarded_witness :
    (objIdentifier (str "mtllib missing.mtl") = .MATERIAL_LIB ∧
     mtlLoadFile theFs initLoader.mtl initLoader.log
       (initLoader.workingDirectory ++ trimC (restOfLine (str "mtllib missing.mtl"))) =
       some mtlRes10) ∧
    (stepLine theFs initLoader (str "mtllib missing.mtl") =
      (.ok, { initLoader with materials := (stealMaterials mtlRes10.2.1).1,
                              mtl := (stealMaterials mtlRes10.2.1).2,
                              log := mtlRes10.2.2 }) ∧
     ((str ".mtl").isSuffixOf
        (trimC (initLoader.workingDirectory ++
          trimC (restOfLine (str "mtllib missing.mtl")))) = false ∨
       fsLookup theFs (initLoader.workingDirectory ++
         trimC (restOfLine (str "mtllib missing.mtl"))) = none →
       mtlRes10.1 = false ∧ mtlRes10.2.1.materials = initLoader.mtl.materials ∧
       mtlRes10.2.2 = initLoader.log)) :=
  ⟨⟨by decide, by decide⟩,
   mtllib_failure_discarded theFs initLoader (str "mtllib missing.mtl") mtlRes10
     (by decide) (by decide)⟩
